import Mathlib

/-!
Verification of the session engine of the `cultura-chupistica-backend`
repository against its natural-language specification.

The definitions below are a shallow embedding of the JavaScript source:
  * `Card`, `CardJSON`          — src/src/domain/models/Card.js
  * `Game` and its methods      — src/src/domain/models/Game.js
  * `GameService.*`             — src/src/domain/services/GameService.js
  * `drawCardExecute`           — the DrawCard use case
                                  (src/src/application/use-cases, DrawCard.execute)

JavaScript objects are modelled as association lists keyed by `String`
(insertion order preserved, as in JS), wall-clock timestamps (`new Date()`)
become explicit `Int` parameters named `now`, in-place mutation becomes
explicit state passing, and `throw` becomes `Except.error` carrying the
thrown message.
-/

namespace Chupistica

/-- The four suits, source strings 'hearts' | 'diamonds' | 'clubs' | 'spades'. -/
inductive Suit
  | hearts | diamonds | clubs | spades
deriving DecidableEq

/-- The thirteen ranks, source strings 'A', '2' … '10', 'J', 'Q', 'K'. -/
inductive Rank
  | A | r2 | r3 | r4 | r5 | r6 | r7 | r8 | r9 | r10 | J | Q | K
deriving DecidableEq

def Suit.str : Suit → String
  | .hearts => "hearts"
  | .diamonds => "diamonds"
  | .clubs => "clubs"
  | .spades => "spades"

def Rank.str : Rank → String
  | .A => "A" | .r2 => "2" | .r3 => "3" | .r4 => "4" | .r5 => "5"
  | .r6 => "6" | .r7 => "7" | .r8 => "8" | .r9 => "9" | .r10 => "10"
  | .J => "J" | .Q => "Q" | .K => "K"

/-- Card.js: a card is its suit and rank; `id` is derived as `rank_suit`. -/
structure Card where
  suit : Suit
  rank : Rank
deriving DecidableEq

/-- Card.js constructor: `this.id = rank + '_' + suit`. -/
def Card.id (c : Card) : String := c.rank.str ++ "_" ++ c.suit.str

/-- Card.js getValue(): A=1, J=11, Q=12, K=13, otherwise the numeral. -/
def Card.getValue (c : Card) : Nat :=
  match c.rank with
  | .A => 1 | .J => 11 | .Q => 12 | .K => 13
  | .r2 => 2 | .r3 => 3 | .r4 => 4 | .r5 => 5 | .r6 => 6
  | .r7 => 7 | .r8 => 8 | .r9 => 9 | .r10 => 10

def Suit.fullName : Suit → String
  | .hearts => "Corazones"
  | .diamonds => "Diamantes"
  | .clubs => "Tréboles"
  | .spades => "Picas"

def Rank.fullName : Rank → String
  | .A => "As" | .J => "Jota" | .Q => "Reina" | .K => "Rey"
  | r => r.str

/-- Card.js getFullName(): `rankName + ' de ' + suitName`. -/
def Card.getFullName (c : Card) : String :=
  c.rank.fullName ++ " de " ++ c.suit.fullName

/-- Card.js isFaceCard(): rank ∈ {J, Q, K}. -/
def Card.isFaceCard (c : Card) : Bool :=
  c.rank = .J ∨ c.rank = .Q ∨ c.rank = .K

/-- Card.js isAce(). -/
def Card.isAce (c : Card) : Bool := c.rank = .A

/-- Card.js isRed(): suit ∈ {hearts, diamonds}. -/
def Card.isRed (c : Card) : Bool := c.suit = .hearts ∨ c.suit = .diamonds

/-- Card.js isBlack(): suit ∈ {clubs, spades}. -/
def Card.isBlack (c : Card) : Bool := c.suit = .clubs ∨ c.suit = .spades

/-- The object literal returned by Card.js toJSON(). -/
structure CardJSON where
  id : String
  suit : Suit
  rank : Rank
  value : Nat
  fullName : String
  isFaceCard : Bool
  isAce : Bool
  isRed : Bool
  isBlack : Bool
deriving DecidableEq

/-- Card.js toJSON(). -/
def Card.toJSON (c : Card) : CardJSON :=
  { id := c.id, suit := c.suit, rank := c.rank, value := c.getValue
    fullName := c.getFullName, isFaceCard := c.isFaceCard, isAce := c.isAce
    isRed := c.isRed, isBlack := c.isBlack }

/-- Card.js fromJSON(cardData): `new Card(cardData.suit, cardData.rank)`
(all derived fields of the input are ignored and recomputed). -/
def Card.fromJSON (d : CardJSON) : Card := ⟨d.suit, d.rank⟩

/-! ### JavaScript-object helpers

JS plain objects used as maps (`savedCards`, `rules`, the stats objects)
become association lists in insertion order; assignment `o[k] = v`
overwrites in place or appends a fresh key at the end, `delete o[k]`
removes the key, `o[k]` reads give `Option`. -/

/-- `o[k]` — first binding of the key, `none` for a missing key. -/
def objGet {α : Type} (m : List (String × α)) (k : String) : Option α :=
  match m with
  | [] => none
  | (k', v) :: rest => if k' = k then some v else objGet rest k

/-- `o[k] = v` — overwrite the existing binding in place, else append. -/
def objSet {α : Type} (m : List (String × α)) (k : String) (v : α) :
    List (String × α) :=
  match m with
  | [] => [(k, v)]
  | (k', v') :: rest =>
      if k' = k then (k, v) :: rest else (k', v') :: objSet rest k v

/-- `delete o[k]`. -/
def objDelete {α : Type} (m : List (String × α)) (k : String) :
    List (String × α) :=
  m.filter (fun kv => kv.1 ≠ k)

/-- Rule lookup `this.rules[card.rank]` (rules objects are keyed by rank). -/
def ruleGet (m : List (Rank × String)) (r : Rank) : Option String :=
  match m with
  | [] => none
  | (r', v) :: rest => if r' = r then some v else ruleGet rest r

/-! ### Game.js data model -/

/-- Session status, source strings 'waiting' | 'started' | 'ended'. -/
inductive GameStatus
  | waiting | started | ended
deriving DecidableEq

/-- One entry of `this.history`.  Draw entries set `kingsCount` only for a K;
activation entries add `isActivated: true`; venganza entries add
`targetPlayerId` and `isVenganza: true`.  Absent JS keys are `none`. -/
structure HistoryEntry where
  card : CardJSON
  playerId : String
  timestamp : Int
  rule : Option String
  kingsCount : Option Nat := none
  isActivated : Option Bool := none
  isVenganza : Option Bool := none
  targetPlayerId : Option String := none
deriving DecidableEq

/-- One entry of `this.cupContent` (pushed when a K is drawn). -/
structure CupEntry where
  playerId : String
  kingNumber : Nat
  timestamp : Int
deriving DecidableEq

/-- One entry of `this.venganzaCards` (pushed when an A is drawn). -/
structure VenganzaEntry where
  playerId : String
  card : CardJSON
  timestamp : Int
deriving DecidableEq

/-- Game.js `_getDefaultRules()`. -/
def defaultRules : List (Rank × String) :=
  [ (.A, "Venganza - Se usa para hacer tomar a alguien cuando se acabe el juego"),
    (.r2, "A vos - Toma la persona que sacó la carta"),
    (.r3, "Yo nunca nunca - Las personas alzan 3 dedos y van diciendo cosas que nunca hayan hecho pero que piensen que los demás sí, para que bajen los dedos. La persona o personas que bajen todos sus dedos deben tomar"),
    (.r4, "Al más gato (ojos más claros) o Mi barquito - \"Mi barquito viene cargado de...\" (ejemplo: marcas de celulares)"),
    (.r5, "Al brinco - La persona guarda esta carta y cuando quiera usarla cuenta 1,2,3 al brinco y el último que salte toma"),
    (.r6, "Al que vez - La primera persona a la que veas tiene que tomar"),
    (.r7, "7 pum - Todo número multiplicado o terminado en 7 no se nombra, se dice pum y cambia el sentido de juego"),
    (.r8, "Al más joven o Colores - Rojos: al más pequeño de cualquier cosa, Negros: al más grande de cualquier cosa"),
    (.r9, "Al que se mueve - La persona guarda esta carta y cuando quiera usarla cuenta 1,2,3 al que se mueve. El que sacó la carta puede moverse y ver quién se mueve para que tome"),
    (.r10, "Al juez (quien está sirviendo) o Historia - Entre todos forman una historia diciendo una palabra, repitiendo las anteriores y sumando una más hasta que alguien se equivoque"),
    (.J, "El jugador de la izquierda toma"),
    (.Q, "El jugador de la derecha toma"),
    (.K, "Copa del Rey - 1ra K: llenar 1/4 del vaso con licor, 2da K: añadir más, 3ra K: completar más, 4ta K: llenar completamente y tomárselo") ]

/-- The session entity of Game.js.  Timestamps (`new Date()`) are `Int`
milliseconds supplied explicitly; `startedAt`/`endedAt` start as `null`. -/
structure Game where
  code : String
  host : String
  players : List String
  deck : List Card
  history : List HistoryEntry
  rules : List (Rank × String)
  status : GameStatus
  currentTurn : Nat
  createdAt : Int
  startedAt : Option Int
  endedAt : Option Int
  savedCards : List (String × List CardJSON)
  kingsCount : Nat
  cupContent : List CupEntry
  venganzaCards : List VenganzaEntry
deriving DecidableEq

/-- Game.js constructor `new Game(code, host)`.  The source builds and
Fisher–Yates-shuffles the 52-card deck with `Math.random`; the shuffled
deck is injected here as the `deck` parameter (the random source is
external input to the embedding). -/
def Game.init (code host : String) (deck : List Card) (now : Int) : Game :=
  { code := code, host := host, players := [host], deck := deck
    history := [], rules := defaultRules, status := .waiting
    currentTurn := 0, createdAt := now, startedAt := none, endedAt := none
    savedCards := [], kingsCount := 0, cupContent := [], venganzaCards := [] }

/-- Game.js getCurrentPlayer(): `this.players[this.currentTurn]`
(`undefined` when the index is out of range). -/
def Game.getCurrentPlayer (g : Game) : Option String :=
  g.players.get? g.currentTurn

/-- Game.js nextTurn(): only when status is 'started',
`currentTurn = (currentTurn + 1) % players.length`. -/
def Game.nextTurn (g : Game) : Game :=
  if g.status = .started then
    { g with currentTurn := (g.currentTurn + 1) % g.players.length }
  else g

/-- Game.js endGame(): status := 'ended', endedAt := now. -/
def Game.endGame (g : Game) (now : Int) : Game :=
  { g with status := .ended, endedAt := some now }

/-- Game.js addPlayer(playerId): rejects unless waiting, unseen and < 8
players; appends the player and initialises `savedCards[playerId] = []`. -/
def Game.addPlayer (g : Game) (playerId : String) : Except String Game :=
  if g.status ≠ .waiting then
    .error "No se puede unir a una partida que ya ha comenzado"
  else if playerId ∈ g.players then
    .error "El jugador ya está en la partida"
  else if g.players.length ≥ 8 then
    .error "La partida está completa (máximo 8 jugadores)"
  else
    .ok { g with players := g.players ++ [playerId]
                 savedCards := objSet g.savedCards playerId [] }

/-- Game.js removePlayer(playerId): returns `false` (state unchanged) when
the player is absent; otherwise removes the first occurrence, deletes the
saved-cards entry, reassigns the host to the new head when the host left
and players remain, and resets `currentTurn` to 0 when out of range. -/
def Game.removePlayer (g : Game) (playerId : String) : Game × Bool :=
  if playerId ∈ g.players then
    let players1 := g.players.erase playerId
    let ga : Game :=
      { g with players := players1
               savedCards := objDelete g.savedCards playerId }
    let gb : Game :=
      if g.host = playerId ∧ players1.length > 0 then
        { ga with host := players1.headI }
      else ga
    let gc : Game :=
      if gb.currentTurn ≥ players1.length then { gb with currentTurn := 0 }
      else gb
    (gc, true)
  else (g, false)

/-- Game.js startGame(): rejects unless waiting with ≥ 2 players; sets
status 'started', `startedAt := now`, `currentTurn := 0`, and resets
`savedCards[p] = []` for every player. -/
def Game.startGame (g : Game) (now : Int) : Except String Game :=
  if g.status ≠ .waiting then
    .error "La partida ya ha comenzado o ha terminado"
  else if g.players.length < 2 then
    .error "Se necesitan al menos 2 jugadores para iniciar"
  else
    .ok { g with status := .started, startedAt := some now, currentTurn := 0
                 savedCards :=
                   g.players.foldl (fun m p => objSet m p []) g.savedCards }

/-- Game.js drawCard(playerId).  Throws unless started and it is the
caller's turn; with an empty deck it calls `endGame()` and returns `null`;
otherwise it pops the tail card, does the K and A bookkeeping, appends the
history entry and advances the turn.  The returned `Option Card` is the
source's `Card | null`. -/
def Game.drawCard (g : Game) (playerId : String) (now : Int) :
    Except String (Game × Option Card) :=
  if g.status ≠ .started then
    .error "La partida no ha comenzado"
  else if g.getCurrentPlayer ≠ some playerId then
    .error "No es el turno de este jugador"
  else if g.deck.length = 0 then
    .ok (g.endGame now, none)
  else
    match g.deck.getLast? with
    | none => .ok (g.endGame now, none)
    | some card =>
      let g1 : Game := { g with deck := g.deck.dropLast }
      let g2 : Game :=
        if card.rank = .K then
          { g1 with kingsCount := g1.kingsCount + 1
                    cupContent := g1.cupContent ++
                      [{ playerId := playerId, kingNumber := g1.kingsCount + 1
                         timestamp := now }] }
        else g1
      let g3 : Game :=
        if card.rank = .A then
          { g2 with venganzaCards := g2.venganzaCards ++
                      [{ playerId := playerId, card := card.toJSON
                         timestamp := now }] }
        else g2
      let entry : HistoryEntry :=
        { card := card.toJSON, playerId := playerId, timestamp := now
          rule := ruleGet g3.rules card.rank
          kingsCount := if card.rank = .K then some g3.kingsCount else none }
      let g4 : Game := { g3 with history := g3.history ++ [entry] }
      .ok (g4.nextTurn, some card)

/-- Game.js saveCard(playerId, card): throws when the player is outside the
session, when `savedCards[playerId]` is absent (the source reads `.length`
of `undefined`, a TypeError), or when 3 cards are already held; otherwise
pushes `card.toJSON()`. -/
def Game.saveCard (g : Game) (playerId : String) (card : Card) :
    Except String Game :=
  if playerId ∉ g.players then
    .error "El jugador no está en la partida"
  else
    match objGet g.savedCards playerId with
    | none => .error "TypeError"
    | some cards =>
      if cards.length ≥ 3 then
        .error "El jugador ya tiene el máximo de cartas guardadas (3)"
      else
        .ok { g with savedCards :=
                objSet g.savedCards playerId (cards ++ [card.toJSON]) }

/-- Game.js useVenganza(playerId, targetPlayerId): only when ended; finds
the first venganza entry of the caller (throws when there is none), checks
the target is a member, then drops **every** entry whose `playerId` is the
caller (`filter(v => v.playerId !== playerId)`) and appends the history
entry.  Returns the consumed entry's card. -/
def Game.useVenganza (g : Game) (playerId targetPlayerId : String)
    (now : Int) : Except String (Game × CardJSON) :=
  if g.status ≠ .ended then
    .error "La venganza solo se puede usar al final del juego"
  else
    match g.venganzaCards.find? (fun v => v.playerId = playerId) with
    | none => .error "Este jugador no tiene cartas de venganza"
    | some venganzaCard =>
      if targetPlayerId ∉ g.players then
        .error "El jugador objetivo no está en la partida"
      else
        let entry : HistoryEntry :=
          { card := venganzaCard.card, playerId := playerId, timestamp := now
            rule := some "Venganza - Hacer tomar a alguien al final del juego"
            targetPlayerId := some targetPlayerId, isVenganza := some true }
        .ok ({ g with
                 venganzaCards :=
                   g.venganzaCards.filter (fun v => v.playerId ≠ playerId),
                 history := g.history ++ [entry] },
             venganzaCard.card)

/-- Game.js isGameOver(): ended or deck exhausted. -/
def Game.isGameOver (g : Game) : Bool :=
  g.status = .ended ∨ g.deck.length = 0

/-- The object returned by Game.js getStats(). -/
structure Stats where
  totalCards : Nat
  cardsPerPlayer : List (String × Nat)
  duration : Option Int
  mostActivePlayer : Option String
deriving DecidableEq

/-- Game.js getStats(): per-player draw counts in player order, duration
`endedAt - startedAt` when both are set, and the first player holding the
strict maximum count (`null` when every count is 0). -/
def Game.getStats (g : Game) : Stats :=
  let cardsPerPlayer : List (String × Nat) :=
    g.players.foldl
      (fun m p =>
        objSet m p (g.history.filter (fun h => h.playerId = p)).length) []
  let duration : Option Int :=
    match g.startedAt, g.endedAt with
    | some s, some e => some (e - s)
    | _, _ => none
  let mostActive : Option String :=
    (cardsPerPlayer.foldl
      (fun acc kv => if kv.2 > acc.1 then (kv.2, some kv.1) else acc)
      ((0 : Nat), (none : Option String))).2
  { totalCards := g.history.length, cardsPerPlayer := cardsPerPlayer
    duration := duration, mostActivePlayer := mostActive }

/-- The object returned by Game.js getKingsCupStatus(). -/
structure KingsCupStatus where
  kingsCount : Nat
  cupContent : List CupEntry
  isComplete : Bool
  nextAction : String
deriving DecidableEq

/-- Game.js getKingsCupStatus(). -/
def Game.getKingsCupStatus (g : Game) : KingsCupStatus :=
  { kingsCount := g.kingsCount, cupContent := g.cupContent
    isComplete := g.kingsCount ≥ 4
    nextAction :=
      if g.kingsCount < 4 then "Añadir al vaso" else "Beber todo el vaso" }

/-- The object literal returned by Game.js toJSON(), in source field order.
`currentPlayer` is `undefined` (here `none`) when the turn index is out of
range, and `stats` is `null` unless the session has ended. -/
structure GameExport where
  code : String
  host : String
  players : List String
  deck : List CardJSON
  history : List HistoryEntry
  rules : List (Rank × String)
  status : GameStatus
  currentTurn : Nat
  currentPlayer : Option String
  createdAt : Int
  startedAt : Option Int
  endedAt : Option Int
  savedCards : List (String × List CardJSON)
  cardsRemaining : Nat
  isGameOver : Bool
  stats : Option Stats
  kingsCount : Nat
  cupContent : List CupEntry
  kingsCupStatus : KingsCupStatus
  venganzaCards : List VenganzaEntry
  availableVenganzas : Nat
deriving DecidableEq

/-- The key names of the object literal built by Game.js toJSON(), in the
order the source writes them.  There is no `version` key. -/
def gameExportKeys : List String :=
  [ "code", "host", "players", "deck", "history", "rules", "status",
    "currentTurn", "currentPlayer", "createdAt", "startedAt", "endedAt",
    "savedCards", "cardsRemaining", "isGameOver", "stats", "kingsCount",
    "cupContent", "kingsCupStatus", "venganzaCards", "availableVenganzas" ]

/-- Game.js toJSON(). -/
def Game.toJSON (g : Game) : GameExport :=
  { code := g.code, host := g.host, players := g.players
    deck := g.deck.map Card.toJSON, history := g.history, rules := g.rules
    status := g.status, currentTurn := g.currentTurn
    currentPlayer := g.getCurrentPlayer, createdAt := g.createdAt
    startedAt := g.startedAt, endedAt := g.endedAt
    savedCards := g.savedCards, cardsRemaining := g.deck.length
    isGameOver := g.isGameOver
    stats := if g.status = .ended then some g.getStats else none
    kingsCount := g.kingsCount, cupContent := g.cupContent
    kingsCupStatus := g.getKingsCupStatus, venganzaCards := g.venganzaCards
    availableVenganzas := g.venganzaCards.length }

/-- Game.js fromJSON(gameData): builds `new Game(code, host)` and then
overwrites every stored field from the data.  The source's `|| default`
fallbacks never fire on an export produced by toJSON: arrays and objects
are truthy in JS even when empty, `status` is a non-empty string, and
`currentTurn || 0` is the identity on numbers that toJSON emits (0 maps to
the default 0).  Deck cards are rebuilt through `Card.fromJSON`; the
derived export fields (currentPlayer, cardsRemaining, stats, …) are
ignored, exactly as in the source. -/
def Game.fromJSON (d : GameExport) : Game :=
  { code := d.code, host := d.host, players := d.players
    deck := d.deck.map Card.fromJSON, history := d.history, rules := d.rules
    status := d.status, currentTurn := d.currentTurn
    createdAt := d.createdAt, startedAt := d.startedAt, endedAt := d.endedAt
    savedCards := d.savedCards, kingsCount := d.kingsCount
    cupContent := d.cupContent, venganzaCards := d.venganzaCards }

/-! ### GameService.js -/

namespace GameService

/-- The result object of GameService.validateCardDraw. -/
structure DrawValidation where
  canDraw : Bool
  reason : Option String
deriving DecidableEq

/-- GameService.validateCardDraw(game, playerId): started, caller's turn,
non-empty deck. -/
def validateCardDraw (g : Game) (playerId : String) : DrawValidation :=
  if g.status ≠ .started then
    { canDraw := false, reason := some "La partida no ha comenzado" }
  else if g.getCurrentPlayer ≠ some playerId then
    { canDraw := false, reason := some "No es el turno de este jugador" }
  else if g.deck.length = 0 then
    { canDraw := false, reason := some "No hay más cartas en la baraja" }
  else
    { canDraw := true, reason := none }

/-- GameService.getNextPlayer(game):
`players[(currentTurn + 1) % players.length]`. -/
def getNextPlayer (g : Game) : Option String :=
  g.players.get? ((g.currentTurn + 1) % g.players.length)

/-- GameService.getPreviousPlayer(game):
`players[(currentTurn - 1 + players.length) % players.length]` (JS number
arithmetic; computed over `Int` and converted back). -/
def getPreviousPlayer (g : Game) : Option String :=
  let n : Int := g.players.length
  g.players.get? ((((g.currentTurn : Int) - 1 + n) % n).toNat)

/-- GameService.getLeftPlayer = getNextPlayer. -/
def getLeftPlayer (g : Game) : Option String := getNextPlayer g

/-- GameService.getRightPlayer = getPreviousPlayer. -/
def getRightPlayer (g : Game) : Option String := getPreviousPlayer g

/-- GameService.getKingsCupMessage(kingsCount). -/
def getKingsCupMessage (kingsCount : Nat) : String :=
  match kingsCount with
  | 1 => "Primera K - Llena 1/4 del vaso con licor"
  | 2 => "Segunda K - Añade más al vaso"
  | 3 => "Tercera K - Completa más el vaso"
  | 4 => "Cuarta K - Llena completamente el vaso y tómatelo todo"
  | _ => "Copa del Rey completada"

/-- The result object of GameService.applyCardRule (initialised with null
fields, then filled by the switch on the rank). -/
structure RuleResult where
  action : Option String
  targetPlayer : Option String
  message : Option String
  requiresUserInput : Bool
  options : Option (List String)
deriving DecidableEq

/-- GameService.applyCardRule(game, card, playerId).  Note that the J and Q
targets are read from the game state **as passed in** (the DrawCard use
case passes the state after the turn has already advanced). -/
def applyCardRule (g : Game) (card : Card) (playerId : String) : RuleResult :=
  let base : RuleResult :=
    { action := none, targetPlayer := none, message := none
      requiresUserInput := false, options := none }
  match card.rank with
  | .A =>
    { base with
      action := some "venganza_saved",
      message := some "Carta de venganza guardada para el final del juego" }
  | .r2 =>
    { base with
      action := some "drink_self", targetPlayer := some playerId,
      message := some "A vos - Toma la persona que sacó la carta" }
  | .r3 =>
    { base with
      action := some "yo_nunca_nunca",
      message := some "Yo nunca nunca - Alzen 3 dedos y empiecen el juego",
      requiresUserInput := true }
  | .r4 =>
    { base with
      action := some "choose_rule",
      message := some "Elige la regla para el 4",
      requiresUserInput := true,
      options := some ["Al más gato (ojos más claros)", "Mi barquito"] }
  | .r5 =>
    { base with
      action := some "card_saved",
      message := some "Carta Al brinco guardada - Úsala cuando quieras" }
  | .r6 =>
    { base with
      action := some "drink_first_seen",
      message := some "Al que vez - La primera persona a la que veas tiene que tomar",
      requiresUserInput := true }
  | .r7 =>
    { base with
      action := some "siete_pum",
      message := some "7 pum - Empiecen a contar, los números con 7 se dicen PUM",
      requiresUserInput := true }
  | .r8 =>
    { base with
      action := some "choose_rule",
      message := some "Elige la regla para el 8",
      requiresUserInput := true,
      options := some ["Al más joven",
        "Colores (rojos: más pequeño, negros: más grande)"] }
  | .r9 =>
    { base with
      action := some "card_saved",
      message := some "Carta Al que se mueve guardada - Úsala cuando quieras" }
  | .r10 =>
    { base with
      action := some "choose_rule",
      message := some "Elige la regla para el 10",
      requiresUserInput := true,
      options := some ["Al juez (quien está sirviendo)", "Historia"] }
  | .J =>
    { base with
      action := some "drink_left",
      targetPlayer := getLeftPlayer g,
      message := some "El jugador de la izquierda toma" }
  | .Q =>
    { base with
      action := some "drink_right",
      targetPlayer := getRightPlayer g,
      message := some "El jugador de la derecha toma" }
  | .K =>
    { base with
      action := some "kings_cup",
      message := some (getKingsCupMessage g.kingsCount) }

/-- GameService.shouldGameEnd(game): deck exhausted or at most one player.
This is the **only** automatic-end rule; `kingsCount` plays no part. -/
def shouldGameEnd (g : Game) : Bool :=
  g.deck.length = 0 ∨ g.players.length ≤ 1

end GameService

/-! ### The DrawCard use case

`DrawCard.execute` (src/src/application/use-cases): after the repository
lookup it validates with `GameService.validateCardDraw`, calls
`game.drawCard`, auto-ends via `GameService.shouldGameEnd`, and only then
computes the rule with `GameService.applyCardRule` on the **updated**
game.  A thrown error is caught and returned as a failure; since every
throw happens before any mutation, the failure carries the unchanged
session. -/

/-- The outcome of one `DrawCard.execute` call: the session state after
the call together with either the drawn card and its rule result, or the
caught error message. -/
inductive UCResult
  | ok (g : Game) (card : Card) (rule : GameService.RuleResult)
  | err (msg : String) (g : Game)
deriving DecidableEq

/-- Session state after the call (failures leave the state untouched, so
`err` carries the input state). -/
def UCResult.game : UCResult → Game
  | .ok g _ _ => g
  | .err _ g => g

def UCResult.isOk : UCResult → Bool
  | .ok _ _ _ => true
  | .err _ _ => false

/-- The drawn card, when the call succeeded. -/
def UCResult.card? : UCResult → Option Card
  | .ok _ c _ => some c
  | .err _ _ => none

/-- The rule outcome, when the call succeeded. -/
def UCResult.rule? : UCResult → Option GameService.RuleResult
  | .ok _ _ r => some r
  | .err _ _ => none

/-- DrawCard.execute({gameCode, playerId}), after the repository has
resolved `gameCode` to the session `g`.  The `!playerId` falsiness check
of the source is the emptiness test on the string.  The two `match` error
arms are unreachable after a passing validation (the source would raise a
TypeError on `drawnCard.toJSON()` if `drawCard` returned null). -/
def drawCardExecute (g : Game) (playerId : String) (now : Int) : UCResult :=
  if playerId = "" then .err "El ID del jugador es requerido" g
  else
    let v := GameService.validateCardDraw g playerId
    if v.canDraw then
      match g.drawCard playerId now with
      | .error m => .err m g
      | .ok (g1, none) => .err "TypeError" g1
      | .ok (g1, some card) =>
        let g2 : Game :=
          if GameService.shouldGameEnd g1 then g1.endGame now else g1
        .ok g2 card (GameService.applyCardRule g2 card playerId)
    else .err (v.reason.getD "") g

/-! ### Observation helpers and concrete test sessions -/

/-- The thrown message of a failed `Except` call (`none` when it succeeded).
A JS `throw` produces no new state, so an error result means the session
was left untouched. -/
def exceptErr? {α : Type} : Except String α → Option String
  | .error m => some m
  | .ok _ => none

/-- Whether an `Except`-returning method call succeeded. -/
def exceptOk {α : Type} : Except String α → Bool
  | .ok _ => true
  | .error _ => false

/-- A session in the middle of play: the given players (head hosting) with
`status = 'started'`, turn 0, empty per-player saved-card lists and the
given remaining deck — the state reached by create/join/start followed by
draws that consumed the rest of the deck.  Used as concrete input for the
claims below. -/
def testGame (players : List String) (deck : List Card) : Game :=
  { code := "ABC123", host := players.headI, players := players, deck := deck
    history := [], rules := defaultRules, status := .started, currentTurn := 0
    createdAt := 0, startedAt := some 0, endedAt := none
    savedCards := players.map (fun p => (p, [])), kingsCount := 0
    cupContent := [], venganzaCards := [] }

/-- C1 input: it is "h"'s turn and the next card off the tail is the 5♥. -/
def c1gFive : Game := testGame ["h", "p"] [⟨.clubs, .r3⟩, ⟨.hearts, .r5⟩]

/-- C1 input, rank-9 variant: the next card off the tail is the 9♦. -/
def c1gNine : Game := testGame ["h", "p"] [⟨.clubs, .r3⟩, ⟨.diamonds, .r9⟩]

/-- C2 input: the four kings sit at the tail of the deck, so the first four
draws are all kings, with one non-king card left underneath. -/
def c2g0 : Game :=
  testGame ["h", "p"]
    [⟨.hearts, .r3⟩, ⟨.spades, .K⟩, ⟨.hearts, .K⟩, ⟨.diamonds, .K⟩,
     ⟨.clubs, .K⟩]

def c2g1 : Game := (drawCardExecute c2g0 "h" 0).game
def c2g2 : Game := (drawCardExecute c2g1 "p" 0).game
def c2g3 : Game := (drawCardExecute c2g2 "h" 0).game

/-- The session right after the fourth K has been drawn. -/
def c2g4 : Game := (drawCardExecute c2g3 "p" 0).game

/-- C3 input: an ended session in which "p" earned two venganza aces. -/
def c3g : Game :=
  { testGame ["p", "q"] [] with
    status := .ended, endedAt := some 5,
    venganzaCards :=
      [⟨"p", (⟨.spades, .A⟩ : Card).toJSON, 1⟩,
       ⟨"p", (⟨.hearts, .A⟩ : Card).toJSON, 2⟩] }

/-- C4 input: three players, turn 0, the J♠ on top (tail) of the deck. -/
def c4gJ : Game := testGame ["a", "b", "c"] [⟨.hearts, .r3⟩, ⟨.spades, .J⟩]

/-- C4 input, Q variant. -/
def c4gQ : Game := testGame ["a", "b", "c"] [⟨.hearts, .r3⟩, ⟨.spades, .Q⟩]

/-- C5 input: three players, turn 0, the 7♥ on top (tail) of the deck. -/
def c5g : Game := testGame ["a", "b", "c"] [⟨.hearts, .r3⟩, ⟨.hearts, .r7⟩]

/-- C6 input: a started two-player session whose deck has run out. -/
def c6g : Game := testGame ["h", "p"] []

/-- C7 input for the preserved part: a waiting two-player session. -/
def c7w : Game :=
  { testGame ["h", "p2"] [] with status := .waiting, startedAt := none }

/-- C8 input: "p" already holds three saved cards. -/
def c8g : Game :=
  { testGame ["p", "q"] [] with
    savedCards :=
      [("p", [(⟨.hearts, .r5⟩ : Card).toJSON, (⟨.clubs, .r5⟩ : Card).toJSON,
              (⟨.spades, .r9⟩ : Card).toJSON]),
       ("q", [])] }

/-- C10 input: an ended session in which "p" earned a venganza ace. -/
def c10g : Game :=
  { testGame ["p", "q"] [] with
    status := .ended, endedAt := some 9,
    venganzaCards := [⟨"p", (⟨.spades, .A⟩ : Card).toJSON, 3⟩] }

end Chupistica

namespace Chupistica

/-! ## Supporting lemmas -/

theorem headI_mem_of_ne_nil {l : List String} (h : l ≠ []) : l.headI ∈ l := by
  cases l with
  | nil => exact absurd rfl h
  | cons a t => simp

/-- What a successful in-play draw guarantees: the session was started and
it was the caller's turn, the drawn card came off the deck tail, and the
updated session keeps status/players/savedCards, drops the tail card and
advances the turn by one modulo the player count. -/
theorem drawCard_ok_spec {g g1 : Game} {p : String} {now : Int} {c : Card}
    (h : g.drawCard p now = .ok (g1, some c)) :
    g.status = .started ∧ g.getCurrentPlayer = some p ∧
    g.deck.getLast? = some c ∧
    g1.status = .started ∧ g1.players = g.players ∧
    g1.deck = g.deck.dropLast ∧
    g1.currentTurn = (g.currentTurn + 1) % g.players.length ∧
    g1.savedCards = g.savedCards := by
  unfold Game.drawCard at h
  split at h
  · simp at h
  · split at h
    · simp at h
    · split at h
      · simp at h
      · rcases hl : g.deck.getLast? with _ | card
        · rw [hl] at h; simp at h
        · rw [hl] at h
          simp only [Except.ok.injEq, Prod.mk.injEq, Option.some.injEq] at h
          obtain ⟨hg1, hc⟩ := h
          subst hg1
          subst hc
          rename_i hstat' hcur' _
          have hstat : g.status = .started := not_ne_iff.mp hstat'
          have hcur : g.getCurrentPlayer = some p := not_ne_iff.mp hcur'
          refine ⟨hstat, hcur, by simp [hl], ?_⟩
          by_cases hk : card.rank = Rank.K <;>
            by_cases ha : card.rank = Rank.A <;>
            simp [hk, ha, Game.nextTurn, hstat]

/-- Shape of a successful DrawCard.execute: it is exactly a successful
`Game.drawCard` followed by the `shouldGameEnd` auto-end, with the rule
applied to the already-updated session. -/
theorem drawCardExecute_ok_spec {g g' : Game} {p : String} {now : Int}
    {c : Card} {r : GameService.RuleResult}
    (h : drawCardExecute g p now = .ok g' c r) :
    ∃ g1, g.drawCard p now = .ok (g1, some c) ∧
      g' = (if GameService.shouldGameEnd g1 then g1.endGame now else g1) ∧
      r = GameService.applyCardRule g' c p := by
  unfold drawCardExecute at h
  split at h
  · simp at h
  · split at h
    · by_cases hc : (GameService.validateCardDraw g p).canDraw = true <;>
        simp [hc] at h
    · by_cases hc : (GameService.validateCardDraw g p).canDraw = true <;>
        simp [hc] at h
    · rename_i g1 card heq
      by_cases hc : (GameService.validateCardDraw g p).canDraw = true
      · simp only [hc, if_true, UCResult.ok.injEq] at h
        obtain ⟨h1, h2, h3⟩ := h
        exact ⟨g1, by rw [heq, h2], h1.symm, by rw [← h3, h1, h2]⟩
      · simp [hc] at h

/-- The index arithmetic of GameService.getPreviousPlayer evaluated one
step after a turn advance: `((t+1) % n - 1 + n) mod n = t mod n`. -/
theorem prev_index_eq (t n : Nat) :
    ((((t + 1) % n : Nat) : Int) - 1 + (n : Int)) % (n : Int) =
      ((t % n : Nat) : Int) := by
  have hcast : (((t + 1) % n : Nat) : Int) = ((t : Int) + 1) % (n : Int) := by
    push_cast
    rfl
  rw [hcast]
  have hmod : ((t : Int) + 1) % n - 1 + n ≡ t [ZMOD (n : Int)] := by
    calc ((t : Int) + 1) % n - 1 + n
        ≡ ((t : Int) + 1) - 1 + n [ZMOD (n : Int)] :=
          ((Int.mod_modEq _ _).sub_right 1).add_right n
      _ = t + n := by ring
      _ ≡ t + 0 [ZMOD (n : Int)] :=
          (Int.ModEq.add_left t (Int.modEq_zero_iff_dvd.mpr dvd_rfl))
      _ = t := by ring
  have h2 : (((t : Int) + 1) % n - 1 + n) % n = (t : Int) % n := hmod
  rw [h2]
  push_cast
  rfl

/-- A Leave by a present player: the list loses that player's first
occurrence, the host is reassigned to the new head exactly when the host
left and players remain, and the call reports success. -/
theorem removePlayer_pos {g : Game} {p : String} (hmem : p ∈ g.players) :
    (g.removePlayer p).1.players = g.players.erase p ∧
    (g.removePlayer p).1.host =
      (if g.host = p ∧ (g.players.erase p).length > 0
        then (g.players.erase p).headI else g.host) ∧
    (g.removePlayer p).2 = true := by
  unfold Game.removePlayer
  rw [if_pos hmem]
  dsimp only
  split <;> split <;> simp_all

/-- A Leave never touches the deck, history, venganza cards, cup content,
kings counter, rules or status. -/
theorem removePlayer_frame (g : Game) (p : String) :
    (g.removePlayer p).1.deck = g.deck ∧
    (g.removePlayer p).1.history = g.history ∧
    (g.removePlayer p).1.venganzaCards = g.venganzaCards ∧
    (g.removePlayer p).1.cupContent = g.cupContent ∧
    (g.removePlayer p).1.kingsCount = g.kingsCount ∧
    (g.removePlayer p).1.rules = g.rules ∧
    (g.removePlayer p).1.status = g.status := by
  unfold Game.removePlayer
  split
  · dsimp only
    split <;> split <;> exact ⟨rfl, rfl, rfl, rfl, rfl, rfl, rfl⟩
  · simp

end Chupistica

namespace Chupistica

/-! ## Claims -/

/-- C1: the spec says a drawn rank-5 or rank-9 card is pushed onto
`savedCards[actor]`.  The code disagrees with its own response text: the
draw succeeds and the rule outcome announces the card as saved
("card_saved"), but `Game.saveCard` is never invoked on the draw path, so
`savedCards` of the drawer stays empty after drawing the 5♥ — and likewise
after drawing the 9♦. -/
theorem c1_draw_does_not_save_card :
    (drawCardExecute c1gFive "h" 0).isOk = true ∧
    (drawCardExecute c1gFive "h" 0).card?.map Card.rank = some .r5 ∧
    ((drawCardExecute c1gFive "h" 0).rule?.map (fun r => r.action)) =
      some (some "card_saved") ∧
    objGet (drawCardExecute c1gFive "h" 0).game.savedCards "h" = some [] ∧
    (drawCardExecute c1gNine "h" 0).isOk = true ∧
    (drawCardExecute c1gNine "h" 0).card?.map Card.rank = some .r9 ∧
    ((drawCardExecute c1gNine "h" 0).rule?.map (fun r => r.action)) =
      some (some "card_saved") ∧
    objGet (drawCardExecute c1gNine "h" 0).game.savedCards "h" = some [] := by
  decide

/-- C2 counterexample: in `c2g0` the first four draws are the four kings;
after the fourth K the session still has `status = 'started'` (not Ended),
and a fifth Draw is accepted rather than rejected. -/
theorem c2_fourth_king_counterexample :
    c2g4.kingsCount = 4 ∧ c2g4.status = .started ∧
    (drawCardExecute c2g4 "h" 0).isOk = true := by
  decide

/-- C2 (amended): drawing the fourth K does not end the session; after any
successful Draw the session is Ended exactly when the deck has been
exhausted or at most one participant remains — the kings counter plays no
part in ending the session. -/
theorem c2_auto_end_iff_deck_empty_or_solo (g : Game) (p : String) (now : Int)
    (h : (drawCardExecute g p now).isOk = true) :
    ((drawCardExecute g p now).game.status = .ended ↔
      ((drawCardExecute g p now).game.deck.length = 0 ∨
       (drawCardExecute g p now).game.players.length ≤ 1)) := by
  cases hm : drawCardExecute g p now with
  | ok g' c r =>
    obtain ⟨g1, hdraw, hg', _⟩ := drawCardExecute_ok_spec hm
    obtain ⟨_, _, _, hst1, _, _, _, _⟩ := drawCard_ok_spec hdraw
    subst hg'
    by_cases hend : GameService.shouldGameEnd g1 = true
    · simp only [UCResult.game, hend, if_true]
      simp only [GameService.shouldGameEnd, decide_eq_true_eq] at hend
      constructor
      · intro _
        simpa [Game.endGame] using hend
      · intro _
        simp [Game.endGame]
    · simp only [UCResult.game]
      rw [if_neg hend]
      simp only [GameService.shouldGameEnd, decide_eq_true_eq] at hend
      push_neg at hend
      simp [hst1, hend.1, hend.2]
  | err m gx =>
    rw [hm] at h
    simp [UCResult.isOk] at h

/-- Witness for C2: the very first draw of the kings deck. -/
theorem c2_auto_end_witness :
    ((drawCardExecute c2g0 "h" 0).game.status = .ended ↔
      ((drawCardExecute c2g0 "h" 0).game.deck.length = 0 ∨
       (drawCardExecute c2g0 "h" 0).game.players.length ≤ 1)) :=
  c2_auto_end_iff_deck_empty_or_solo c2g0 "h" 0 (by decide)

/-- C3: the spec says consuming a venganza removes exactly one `(p, card)`
entry.  The code's comment agrees ("remover la carta de venganza usada",
singular) but the implementation filters out **every** entry of the
consumer: in `c3g` the player "p" owns two venganza aces, yet a single
consume leaves `venganzaCards` empty — so the invariant
`len(venganzaCards) = (A drawn) − (consumes)` breaks (0 ≠ 2 − 1). -/
theorem c3_consume_removes_all_entries :
    (c3g.venganzaCards.filter (fun v => v.playerId = "p")).length = 2 ∧
    (c3g.useVenganza "p" "q" 9).toOption.map
      (fun x => x.1.venganzaCards) = some [] := by
  decide

end Chupistica

namespace Chupistica

/-- Internal to C4: for a successful draw, the J/Q targets are computed on
the already-advanced turn index. -/
theorem drawTargets_ok {g g' : Game} {p : String} {now : Int}
    {c : Card} {r : GameService.RuleResult}
    (h : drawCardExecute g p now = .ok g' c r) :
    (c.rank = .J →
      r.targetPlayer =
        g.players.get? ((g.currentTurn + 2) % g.players.length)) ∧
    (c.rank = .Q →
      r.targetPlayer = g.players.get? (g.currentTurn % g.players.length)) := by
  obtain ⟨g1, hdraw, hg', hr⟩ := drawCardExecute_ok_spec h
  obtain ⟨_, _, _, _, hpl, _, hturn, _⟩ := drawCard_ok_spec hdraw
  have hplayers : g'.players = g.players := by
    subst hg'; split
    · simpa [Game.endGame] using hpl
    · exact hpl
  have hturn' : g'.currentTurn = (g.currentTurn + 1) % g.players.length := by
    subst hg'; split
    · simpa [Game.endGame] using hturn
    · exact hturn
  constructor
  · intro hJ
    rw [hr]
    simp only [GameService.applyCardRule, hJ, GameService.getLeftPlayer,
      GameService.getNextPlayer, hplayers, hturn']
    rw [Nat.mod_add_mod]
  · intro hQ
    rw [hr]
    simp only [GameService.applyCardRule, hQ, GameService.getRightPlayer,
      GameService.getPreviousPlayer, hplayers, hturn']
    rw [prev_index_eq, Int.toNat_natCast]

/-- C4 counterexample: three players a, b, c with turn index 0.  The claim
predicts the J targets position (0+1) mod 3, player "b", and the Q targets
position (0−1+3) mod 3, player "c".  The code advances the turn before
applying the rule, so the J actually targets "c" and the Q targets the
drawer "a" personally. -/
theorem c4_targets_counterexample :
    ((drawCardExecute c4gJ "a" 0).card?.map Card.rank = some .J) ∧
    ((drawCardExecute c4gJ "a" 0).rule?.map (fun r => r.targetPlayer)) =
      some (some "c") ∧
    ((drawCardExecute c4gJ "a" 0).rule?.map (fun r => r.targetPlayer)) ≠
      some (some "b") ∧
    ((drawCardExecute c4gQ "a" 0).card?.map Card.rank = some .Q) ∧
    ((drawCardExecute c4gQ "a" 0).rule?.map (fun r => r.targetPlayer)) =
      some (some "a") ∧
    ((drawCardExecute c4gQ "a" 0).rule?.map (fun r => r.targetPlayer)) ≠
      some (some "c") := by
  decide

/-- C4 (amended): because DrawCard.execute applies the card rule only
after the turn has advanced, a drawn J targets the participant at
position (t+2) mod n and a drawn Q targets the participant at position
t mod n (the drawer), where t is the turn index before the draw. -/
theorem c4_targets_after_turn_advance (g : Game) (p : String) (now : Int)
    (h : (drawCardExecute g p now).isOk = true) :
    ((drawCardExecute g p now).card?.map Card.rank = some .J →
      ((drawCardExecute g p now).rule?.map (fun r => r.targetPlayer)) =
        some (g.players.get? ((g.currentTurn + 2) % g.players.length))) ∧
    ((drawCardExecute g p now).card?.map Card.rank = some .Q →
      ((drawCardExecute g p now).rule?.map (fun r => r.targetPlayer)) =
        some (g.players.get? (g.currentTurn % g.players.length))) := by
  cases hm : drawCardExecute g p now with
  | ok g' c r =>
    obtain ⟨htJ, htQ⟩ := drawTargets_ok hm
    constructor
    · intro hJ
      simp only [UCResult.card?, Option.map_some', Option.some.injEq] at hJ
      simp only [UCResult.rule?, Option.map_some', Option.some.injEq]
      exact htJ hJ
    · intro hQ
      simp only [UCResult.card?, Option.map_some', Option.some.injEq] at hQ
      simp only [UCResult.rule?, Option.map_some', Option.some.injEq]
      exact htQ hQ
  | err m gx =>
    rw [hm] at h
    simp [UCResult.isOk] at h

/-- Witness for C4: the J draw by "a" in the three-player session. -/
theorem c4_targets_witness :
    ((drawCardExecute c4gJ "a" 0).card?.map Card.rank = some .J →
      ((drawCardExecute c4gJ "a" 0).rule?.map (fun r => r.targetPlayer)) =
        some (c4gJ.players.get?
          ((c4gJ.currentTurn + 2) % c4gJ.players.length))) ∧
    ((drawCardExecute c4gJ "a" 0).card?.map Card.rank = some .Q →
      ((drawCardExecute c4gJ "a" 0).rule?.map (fun r => r.targetPlayer)) =
        some (c4gJ.players.get? (c4gJ.currentTurn % c4gJ.players.length))) :=
  c4_targets_after_turn_advance c4gJ "a" 0 (by decide)

/-- C5 counterexample: three players a, b, c with turn index 0 and
direction (per the claim) +1.  The claim predicts that drawing a 7 toggles
the direction, so the turn would move to (0 − 1 + 3) mod 3 = 2.  The code
has no direction state: after "a" draws the 7♥ the turn index is 1, not 2. -/
theorem c5_seven_counterexample :
    ((drawCardExecute c5g "a" 0).card?.map Card.rank = some .r7) ∧
    (drawCardExecute c5g "a" 0).game.currentTurn = 1 ∧
    (drawCardExecute c5g "a" 0).game.currentTurn ≠ 2 := by
  decide

/-- C5 (amended): after every successful Draw the turn index becomes
(turnIndex + 1) mod n unconditionally — Game.nextTurn always adds one; no
direction is kept and a rank-7 draw does not alter turn progression. -/
theorem c5_turn_always_plus_one (g : Game) (p : String) (now : Int)
    (h : (drawCardExecute g p now).isOk = true) :
    (drawCardExecute g p now).game.currentTurn =
      (g.currentTurn + 1) % g.players.length := by
  cases hm : drawCardExecute g p now with
  | ok g' c r =>
    obtain ⟨g1, hdraw, hg', _⟩ := drawCardExecute_ok_spec hm
    obtain ⟨_, _, _, _, _, _, hturn, _⟩ := drawCard_ok_spec hdraw
    simp only [UCResult.game]
    subst hg'
    split
    · simpa [Game.endGame] using hturn
    · exact hturn
  | err m gx =>
    rw [hm] at h
    simp [UCResult.isOk] at h

/-- Witness for C5: the 7♥ draw by "a". -/
theorem c5_turn_witness :
    (drawCardExecute c5g "a" 0).game.currentTurn =
      (c5g.currentTurn + 1) % c5g.players.length :=
  c5_turn_always_plus_one c5g "a" 0 (by decide)

end Chupistica

namespace Chupistica

/-- C6: a Draw command on a started session whose deck is empty is
rejected by GameService.validateCardDraw with the deck-empty message
before `Game.drawCard` is reached, so the failure carries the session
unchanged — status, turn index, history and every other field are
untouched. -/
theorem c6_empty_deck_draw_rejected (g : Game) (p : String) (now : Int)
    (hp : p ≠ "") (hst : g.status = .started)
    (hcur : g.getCurrentPlayer = some p) (hdeck : g.deck = []) :
    drawCardExecute g p now = .err "No hay más cartas en la baraja" g := by
  unfold drawCardExecute
  rw [if_neg hp]
  simp [GameService.validateCardDraw, hst, hcur, hdeck]

/-- Witness for C6: the two-player started session with an exhausted deck. -/
theorem c6_empty_deck_witness :
    drawCardExecute c6g "h" 0 = .err "No hay más cartas en la baraja" c6g :=
  c6_empty_deck_draw_rejected c6g "h" 0 (by decide) (by decide) (by decide)
    (by decide)

/-- C7 counterexample: a freshly created session holds only its host "h".
`removePlayer("h")` is accepted (returns true) yet leaves an empty
participant list with the host no longer a member — the source only
reassigns the host when players remain. -/
theorem c7_sole_leave_counterexample :
    ((Game.init "ABCD" "h" [] 0).removePlayer "h").2 = true ∧
    ((Game.init "ABCD" "h" [] 0).removePlayer "h").1.players = [] ∧
    ((Game.init "ABCD" "h" [] 0).removePlayer "h").1.host ∉
      ((Game.init "ABCD" "h" [] 0).removePlayer "h").1.players := by
  decide

/-- C7 (amended): an accepted Join keeps the host a member and the list
within 1..8 unique members, and a Leave does so as well provided at least
two participants are present beforehand; a Leave by the sole remaining
participant, however, empties the list and strands the host outside it. -/
theorem c7_membership_preserved (g : Game) (p : String)
    (hhost : g.host ∈ g.players) (hnodup : g.players.Nodup)
    (hlen : g.players.length ≤ 8) :
    (∀ g', g.addPlayer p = .ok g' →
      g'.host ∈ g'.players ∧ 1 ≤ g'.players.length ∧
      g'.players.length ≤ 8 ∧ g'.players.Nodup) ∧
    (2 ≤ g.players.length →
      (g.removePlayer p).1.host ∈ (g.removePlayer p).1.players ∧
      1 ≤ (g.removePlayer p).1.players.length ∧
      (g.removePlayer p).1.players.length ≤ 8 ∧
      (g.removePlayer p).1.players.Nodup) := by
  constructor
  · intro g' hadd
    unfold Game.addPlayer at hadd
    split at hadd
    · simp at hadd
    · split at hadd
      · simp at hadd
      · split at hadd
        · simp at hadd
        · rename_i hmem hlt
          simp only [Except.ok.injEq] at hadd
          subst hadd
          refine ⟨List.mem_append_left _ hhost, by simp, ?_, ?_⟩
          · simp
            omega
          · simp [List.nodup_append, hnodup, hmem]
  · intro h2
    by_cases hmem : p ∈ g.players
    · obtain ⟨hpl, hhost', _⟩ := removePlayer_pos (g := g) hmem
      have herase_len : (g.players.erase p).length = g.players.length - 1 :=
        List.length_erase_of_mem hmem
      have hne : g.players.erase p ≠ [] := by
        intro hnil
        rw [hnil] at herase_len
        simp at herase_len
        omega
      have hlen1 : 1 ≤ (g.players.erase p).length := by
        rw [herase_len]; omega
      have hlen8 : (g.players.erase p).length ≤ 8 := by
        rw [herase_len]; omega
      refine ⟨?_, by rw [hpl]; exact hlen1, by rw [hpl]; exact hlen8,
        by rw [hpl]; exact hnodup.erase p⟩
      rw [hpl, hhost']
      by_cases hh : g.host = p ∧ (g.players.erase p).length > 0
      · rw [if_pos hh]
        exact headI_mem_of_ne_nil hne
      · rw [if_neg hh]
        have hhostne : g.host ≠ p := by
          intro he
          exact hh ⟨he, hlen1⟩
        exact (List.mem_erase_of_ne hhostne).mpr hhost
    · unfold Game.removePlayer
      rw [if_neg hmem]
      exact ⟨hhost, (by omega : 1 ≤ g.players.length), hlen, hnodup⟩

/-- Witness for C7: the waiting two-player session, with "p2" joining-id
reused as the leaver. -/
theorem c7_membership_witness :
    (∀ g', c7w.addPlayer "p3" = .ok g' →
      g'.host ∈ g'.players ∧ 1 ≤ g'.players.length ∧
      g'.players.length ≤ 8 ∧ g'.players.Nodup) ∧
    (2 ≤ c7w.players.length →
      (c7w.removePlayer "p3").1.host ∈ (c7w.removePlayer "p3").1.players ∧
      1 ≤ (c7w.removePlayer "p3").1.players.length ∧
      (c7w.removePlayer "p3").1.players.length ≤ 8 ∧
      (c7w.removePlayer "p3").1.players.Nodup) :=
  c7_membership_preserved c7w "p3" (by decide) (by decide) (by decide)

/-- C8 counterexample: "p" already holds three saved cards; the claim says
a fourth save succeeds and silently drops the oldest, but `Game.saveCard`
throws the capacity error instead. -/
theorem c8_fourth_save_counterexample :
    (objGet c8g.savedCards "p").map List.length = some 3 ∧
    exceptErr? (c8g.saveCard "p" ⟨.diamonds, .r9⟩) =
      some "El jugador ya tiene el máximo de cartas guardadas (3)" := by
  decide

/-- C8 (amended): when a participant already holds three saved cards,
saving another card fails with 'El jugador ya tiene el máximo de cartas
guardadas (3)' — nothing is dropped and the saved list is left as it was
(the throw happens before any mutation). -/
theorem c8_save_at_cap_rejected (g : Game) (p : String) (c : Card)
    (l : List CardJSON) (hp : p ∈ g.players)
    (hl : objGet g.savedCards p = some l) (h3 : 3 ≤ l.length) :
    g.saveCard p c =
      .error "El jugador ya tiene el máximo de cartas guardadas (3)" := by
  unfold Game.saveCard
  rw [if_neg (by simpa using hp), hl]
  dsimp only
  rw [if_pos h3]

/-- Witness for C8: the session where "p" holds three saved cards. -/
theorem c8_save_at_cap_witness :
    c8g.saveCard "p" ⟨.diamonds, .r9⟩ =
      .error "El jugador ya tiene el máximo de cartas guardadas (3)" :=
  c8_save_at_cap_rejected c8g "p" ⟨.diamonds, .r9⟩
    [(⟨.hearts, .r5⟩ : Card).toJSON, (⟨.clubs, .r5⟩ : Card).toJSON,
     (⟨.spades, .r9⟩ : Card).toJSON]
    (by decide) (by decide) (by decide)

end Chupistica

namespace Chupistica

/-- Internal to C9: restoring a card from its export recovers the card. -/
theorem card_fromJSON_toJSON (c : Card) : Card.fromJSON (Card.toJSON c) = c :=
  rfl

/-- Internal to C9: restoring a session from its export recovers the
session — the derived export fields are ignored by fromJSON and every
stored field round-trips. -/
theorem game_fromJSON_toJSON (g : Game) :
    Game.fromJSON (Game.toJSON g) = g := by
  have h : Card.fromJSON ∘ Card.toJSON = id := funext fun c => rfl
  cases g
  simp [Game.fromJSON, Game.toJSON, List.map_map, h]

/-- C9 counterexample: the export object written by Game.js toJSON() has
no `version` key at all, so the export does not carry `version: 1` as the
claim requires. -/
theorem c9_no_version_field : "version" ∉ gameExportKeys := by
  decide

/-- C9 (amended): export → restore → export is the identity on exports —
`toJSON (fromJSON (toJSON g)) = toJSON g` for every session — but the
export carries no version field. -/
theorem c9_export_roundtrip (g : Game) :
    Game.toJSON (Game.fromJSON (Game.toJSON g)) = Game.toJSON g := by
  rw [game_fromJSON_toJSON]

/-- C10: a Leave changes only the participant list, the leaver's
saved-cards entry, the host and the turn index; deck, history,
venganzaCards, cupContent, kingsCount, rules and status are all untouched,
and on an ended session a venganza entry earned by the departed player is
still consumable by that player against any remaining member
(Game.useVenganza never requires the consumer to be a member). -/
theorem c10_leave_frame_and_venganza (g : Game) (p target : String)
    (now : Int) (hend : g.status = .ended)
    (hex : ∃ v ∈ g.venganzaCards, v.playerId = p)
    (htarget : target ∈ (g.removePlayer p).1.players) :
    (g.removePlayer p).1.deck = g.deck ∧
    (g.removePlayer p).1.history = g.history ∧
    (g.removePlayer p).1.venganzaCards = g.venganzaCards ∧
    (g.removePlayer p).1.cupContent = g.cupContent ∧
    (g.removePlayer p).1.kingsCount = g.kingsCount ∧
    (g.removePlayer p).1.rules = g.rules ∧
    (g.removePlayer p).1.status = g.status ∧
    exceptOk ((g.removePlayer p).1.useVenganza p target now) = true := by
  obtain ⟨hdk, hhist, hven, hcup, hkc, hrl, hst⟩ := removePlayer_frame g p
  refine ⟨hdk, hhist, hven, hcup, hkc, hrl, hst, ?_⟩
  have hfind : ((g.removePlayer p).1.venganzaCards.find?
      (fun v => v.playerId = p)).isSome := by
    rw [List.find?_isSome]
    obtain ⟨v, hv, hvp⟩ := hex
    exact ⟨v, by rw [hven]; exact hv, by simp [hvp]⟩
  obtain ⟨w, hw⟩ := Option.isSome_iff_exists.mp hfind
  unfold Game.useVenganza
  rw [if_neg (by simp [hst, hend])]
  rw [hw]
  dsimp only
  rw [if_neg (by simpa using htarget)]
  rfl

/-- Witness for C10: "p" leaves the ended session `c10g` and then spends
the venganza ace earned earlier against the remaining player "q". -/
theorem c10_leave_witness :
    (c10g.removePlayer "p").1.deck = c10g.deck ∧
    (c10g.removePlayer "p").1.history = c10g.history ∧
    (c10g.removePlayer "p").1.venganzaCards = c10g.venganzaCards ∧
    (c10g.removePlayer "p").1.cupContent = c10g.cupContent ∧
    (c10g.removePlayer "p").1.kingsCount = c10g.kingsCount ∧
    (c10g.removePlayer "p").1.rules = c10g.rules ∧
    (c10g.removePlayer "p").1.status = c10g.status ∧
    exceptOk ((c10g.removePlayer "p").1.useVenganza "p" "q" 11) = true :=
  c10_leave_frame_and_venganza c10g "p" "q" 11 (by decide) (by decide)
    (by decide)

end Chupistica
